import Mathlib

/-
  Shallow embedding of the Availability & Conflict Resolution Engine of the
  dashboard_redDeportiva_back repository.

  Time is modelled in whole minutes: an instant is `Nat` minutes since an
  arbitrary epoch midnight, so `dayOf t = t / 1440` is the calendar day
  (JS `setHours(0,0,0,0)`) and `minOfDay t = t % 1440` is
  `getHours() * 60 + getMinutes()`.  Blackout time bounds are the parsed
  `HH:mm` pairs (hour, minute), mirroring `split(':').map(Number)`.
-/

/-- Booking status enumeration: `pending | confirmed | cancelled | completed`. -/
inductive BStatus where
  | pending
  | confirmed
  | cancelled
  | completed
deriving DecidableEq, Repr, BEq

/-- Payment status enumeration: `pending | paid | refunded`. -/
inductive PStatus where
  | pending
  | paid
  | refunded
deriving DecidableEq, Repr, BEq

/-- A persisted booking row (fields used by the engine; `notes` and
`paymentMethod` are free-text passthroughs and are omitted). -/
structure Booking where
  id : Nat
  courtId : Nat
  clientId : Option Nat
  userId : Nat
  bookingDate : Nat
  startTime : Nat
  endTime : Nat
  duration : Nat
  price : Nat
  status : BStatus
  paymentStatus : PStatus
  isAppNative : Bool
deriving DecidableEq, Repr

/-- A persisted `CourtAvailability` (blackout) row.  `startTime`/`endTime`
are the optional parsed `HH:mm` pairs. -/
structure Blackout where
  id : Nat
  courtId : Nat
  startDate : Nat
  endDate : Nat
  startTime : Option (Nat × Nat)
  endTime : Option (Nat × Nat)
  reason : String
  description : Option String
  isActive : Bool
  userId : Nat
deriving DecidableEq, Repr

/-- A court; `complexUserId` is the flattened `court.complex.userId`
ownership chain used by every permission check. -/
structure Court where
  id : Nat
  complexUserId : Nat
  isActive : Bool
deriving DecidableEq, Repr

/-- A client record (only the ownership field matters to the engine). -/
structure Client where
  id : Nat
  userId : Nat
deriving DecidableEq, Repr

/-- The persistence boundary: the tables the engine reads and writes.
`nextId` models the database assigning fresh primary keys. -/
structure Store where
  nextId : Nat
  bookings : List Booking
  blackouts : List Blackout
  courts : List Court
  clients : List Client
deriving DecidableEq, Repr

/-- `HH:mm` pair to minutes since midnight (`hour * 60 + min`). -/
def toMinutes (t : Nat × Nat) : Nat := t.1 * 60 + t.2

/-- Calendar day of an instant (JS `setHours(0,0,0,0)` / date truncation). -/
def dayOf (t : Nat) : Nat := t / 1440

/-- Minutes since midnight of an instant (`getHours() * 60 + getMinutes()`). -/
def minOfDay (t : Nat) : Nat := t % 1440

/-- `status ∈ {pending, confirmed}` — the statuses that participate in
conflict checks. -/
def isActiveStatus (s : BStatus) : Bool := s == .pending || s == .confirmed

def findCourt (st : Store) (i : Nat) : Option Court := st.courts.find? (fun c => c.id == i)

def findClient (st : Store) (i : Nat) : Option Client := st.clients.find? (fun c => c.id == i)

def findBooking (st : Store) (i : Nat) : Option Booking := st.bookings.find? (fun b => b.id == i)

def findBlackout (st : Store) (i : Nat) : Option Blackout := st.blackouts.find? (fun b => b.id == i)

/-- The three-case half-open overlap test repeated throughout the source
(`bookings.service.ts` conflict query and slot loop, `main.ts` conflict
query, `public-courts.controller.ts`, `court-availability.service.ts`):
existing interval `[bS, bE)` against candidate `[s, e)`:
candidate starts inside existing, candidate ends inside existing, or
candidate fully contains existing. -/
def overlapsCand (bS bE s e : Nat) : Bool :=
  (decide (bS ≤ s) && decide (s < bE)) ||
  (decide (bS < e) && decide (e ≤ bE)) ||
  (decide (s ≤ bS) && decide (bE ≤ e))

/-- Whether a blackout blocks the minute interval `[sMin, eMin)`: a block
missing either time bound covers the whole day; otherwise the three-case
minute overlap test is applied. -/
def blackoutBlocksMinutes (bl : Blackout) (sMin eMin : Nat) : Bool :=
  match bl.startTime, bl.endTime with
  | some bs, some be => overlapsCand (toMinutes bs) (toMinutes be) sMin eMin
  | _, _ => true

/-- Active blackouts of a court whose inclusive `[startDate, endDate]`
range contains `day` (the `findMany` filter shared by both services). -/
def activeBlocksOn (st : Store) (courtId day : Nat) : List Blackout :=
  st.blackouts.filter (fun bl =>
    bl.courtId == courtId && bl.isActive &&
    decide (bl.startDate ≤ day) && decide (day ≤ bl.endDate))

/-- The Prisma `where` filter of `checkTimeSlotAvailability`: same court,
active status, not the excluded id, and one of the three overlap cases. -/
def bookingConflictsWith (courtId s e : Nat) (excl : Option Nat) (b : Booking) : Bool :=
  b.courtId == courtId && isActiveStatus b.status &&
  (match excl with
   | some i => b.id != i
   | none => true) &&
  overlapsCand b.startTime b.endTime s e

namespace BookingsService

/-- `BookingsService.checkTimeSlotAvailability`: false on any conflicting
active booking; otherwise false iff some active blackout containing the
start instant's day blocks the candidate's minutes-of-day interval. -/
def checkTimeSlotAvailability (st : Store) (courtId s e : Nat) (excl : Option Nat) : Bool :=
  if st.bookings.any (bookingConflictsWith courtId s e excl) then false
  else
    (activeBlocksOn st courtId (dayOf s)).all
      (fun bl => ! blackoutBlocksMinutes bl (minOfDay s) (minOfDay e))

end BookingsService

/-- Error taxonomy mirroring the thrown Nest exception classes. -/
inductive Err where
  | notFound (msg : String)
  | forbidden (msg : String)
  | badRequest (msg : String)
  | conflict (msg : String)
deriving DecidableEq, Repr

/-- The exception class of an error, forgetting the message. -/
inductive ErrKind where
  | notFoundK
  | forbiddenK
  | badRequestK
  | conflictK
deriving DecidableEq, Repr

def Err.kind : Err → ErrKind
  | .notFound _ => .notFoundK
  | .forbidden _ => .forbiddenK
  | .badRequest _ => .badRequestK
  | .conflict _ => .conflictK

/-- Exception class of a result, if it is an error. -/
def errKindOf {α : Type} (r : Except Err α) : Option ErrKind :=
  match r with
  | .error e => some e.kind
  | .ok _ => none

/-- Modelled from the spec: the Prisma schema is not part of the source
snapshot; §3 of the spec gives the column defaults it supplies — a booking
created without an explicit status/payment status stores `pending`, and a
blackout is created with `isActive = true`. -/
def defaultBookingStatus : BStatus := .pending

/-- Modelled from the spec: default payment status column value (§3). -/
def defaultPaymentStatus : PStatus := .pending

/-- Modelled from the spec: blackouts start out active (§3 lifecycle and
the toggle operation). -/
def defaultBlackoutActive : Bool := true

/-- `CreateBookingDto` (dashboard): instants in minutes, optional
status/payment status exactly as in the DTO. -/
structure CreateBookingDto where
  bookingDate : Nat
  startTime : Nat
  endTime : Nat
  duration : Nat
  price : Nat
  courtId : Nat
  clientId : Nat
  status : Option BStatus
  paymentStatus : Option PStatus
deriving Repr

/-- `UpdateBookingDto = PartialType(CreateBookingDto)`: every field optional. -/
structure UpdateBookingDto where
  bookingDate : Option Nat
  startTime : Option Nat
  endTime : Option Nat
  duration : Option Nat
  price : Option Nat
  courtId : Option Nat
  clientId : Option Nat
  status : Option BStatus
  paymentStatus : Option PStatus
deriving Repr

namespace BookingsService

/-- `BookingsService.create`: court lookup and ownership, client lookup and
ownership, `endTime > startTime`, availability (no exclusion), then persist
the spread DTO — caller-supplied status/paymentStatus survive, the schema
default applies only when they are absent. -/
def create (st : Store) (userId : Nat) (dto : CreateBookingDto) :
    Except Err (Store × Booking) :=
  match findCourt st dto.courtId with
  | none => .error (.notFound "Cancha no encontrada")
  | some court =>
    if court.complexUserId != userId then
      .error (.forbidden "No tienes permiso para crear reservas en esta cancha")
    else match findClient st dto.clientId with
      | none => .error (.notFound "Cliente no encontrado")
      | some client =>
        if client.userId != userId then
          .error (.forbidden "No tienes permiso para usar este cliente")
        else if decide (dto.endTime ≤ dto.startTime) then
          .error (.badRequest "La hora de fin debe ser posterior a la hora de inicio")
        else if ! checkTimeSlotAvailability st dto.courtId dto.startTime dto.endTime none then
          .error (.conflict "La cancha no está disponible en el horario seleccionado")
        else
          let bk : Booking :=
            { id := st.nextId
              courtId := dto.courtId
              clientId := some dto.clientId
              userId := userId
              bookingDate := dto.bookingDate
              startTime := dto.startTime
              endTime := dto.endTime
              duration := dto.duration
              price := dto.price
              status := dto.status.getD defaultBookingStatus
              paymentStatus := dto.paymentStatus.getD defaultPaymentStatus
              isAppNative := false }
          .ok ({ st with nextId := st.nextId + 1, bookings := st.bookings ++ [bk] }, bk)

/-- `BookingsService.update`: booking lookup and ownership; only when a time
field is supplied, re-validate `end > start` (with stored fallbacks) and
re-check availability excluding the booking itself — always against the
booking's **current** court; then apply every supplied field. -/
def update (st : Store) (id userId : Nat) (dto : UpdateBookingDto) :
    Except Err (Store × Booking) :=
  match findBooking st id with
  | none => .error (.notFound "Reserva no encontrada")
  | some booking =>
    if booking.userId != userId then
      .error (.forbidden "No tienes permiso para actualizar esta reserva")
    else
      let needCheck := dto.startTime.isSome || dto.endTime.isSome
      let s := dto.startTime.getD booking.startTime
      let e := dto.endTime.getD booking.endTime
      if needCheck && decide (e ≤ s) then
        .error (.badRequest "La hora de fin debe ser posterior a la hora de inicio")
      else if needCheck && ! checkTimeSlotAvailability st booking.courtId s e (some id) then
        .error (.conflict "La cancha no está disponible en el horario seleccionado")
      else
        let nb : Booking :=
          { booking with
            bookingDate := dto.bookingDate.getD booking.bookingDate
            startTime := dto.startTime.getD booking.startTime
            endTime := dto.endTime.getD booking.endTime
            duration := dto.duration.getD booking.duration
            price := dto.price.getD booking.price
            courtId := dto.courtId.getD booking.courtId
            clientId := match dto.clientId with
              | some c => some c
              | none => booking.clientId
            status := dto.status.getD booking.status
            paymentStatus := dto.paymentStatus.getD booking.paymentStatus }
        .ok ({ st with bookings := st.bookings.map (fun b => if b.id == id then nb else b) }, nb)

/-- `BookingsService.cancelBooking`: lookup and ownership via `findOne`;
reject already-cancelled and completed; otherwise set status to cancelled
and paymentStatus to refunded when it was paid, else to pending. -/
def cancelBooking (st : Store) (id userId : Nat) : Except Err (Store × Booking) :=
  match findBooking st id with
  | none => .error (.notFound "Reserva no encontrada")
  | some booking =>
    if booking.userId != userId then
      .error (.forbidden "No tienes permiso para ver esta reserva")
    else if booking.status == .cancelled then
      .error (.badRequest "La reserva ya está cancelada")
    else if booking.status == .completed then
      .error (.badRequest "No se puede cancelar una reserva completada")
    else
      let nb : Booking :=
        { booking with
          status := .cancelled
          paymentStatus := if booking.paymentStatus == .paid then .refunded else .pending }
      .ok ({ st with bookings := st.bookings.map (fun b => if b.id == id then nb else b) }, nb)

end BookingsService

/-- The 30-minute tiling loop of `getAvailableSlots`
(`while (currentTime < dayEnd) { ...; currentTime = slotEnd }` with
`slotEnd = currentTime + 30`). -/
def tile30 (winEnd cur : Nat) : List Nat :=
  if cur < winEnd then cur :: tile30 winEnd (cur + 30) else []
termination_by winEnd - cur
decreasing_by omega

/-- A slot of the dashboard slot listing: interval in absolute minutes,
availability flag and the optional conflicting booking id. -/
structure DashSlot where
  startMin : Nat
  endMin : Nat
  available : Bool
  bookingId : Option Nat
deriving DecidableEq, Repr

/-- Active bookings of a court whose `bookingDate` falls on `day`
(the `gte startOfDay / lte endOfDay` filter, at minute granularity). -/
def bookingsOfDay (st : Store) (courtId day : Nat) : List Booking :=
  st.bookings.filter (fun b =>
    b.courtId == courtId &&
    decide (day * 1440 ≤ b.bookingDate) && decide (b.bookingDate ≤ day * 1440 + 1439) &&
    isActiveStatus b.status)

namespace BookingsService

/-- `BookingsService.getAvailableSlots`: 30-minute slots from 06:00 to
23:00 of `day`; a slot is occupied when an active same-day booking matches
any of the three overlap cases, but the `bookingId` lookup re-tests only
the first two cases.  Blackouts are never consulted here.  (The source
additionally orders the fetched bookings by `startTime`; the ordering is
irrelevant to the properties proved below and is not modelled.) -/
def getAvailableSlots (st : Store) (courtId day : Nat) : List DashSlot :=
  let bookings := bookingsOfDay st courtId day
  (tile30 (day * 1440 + 1380) (day * 1440 + 360)).map (fun cur =>
    let slotEnd := cur + 30
    let isBooked := bookings.any (fun b => overlapsCand b.startTime b.endTime cur slotEnd)
    { startMin := cur
      endMin := slotEnd
      available := ! isBooked
      bookingId :=
        if isBooked then
          (bookings.find? (fun b =>
            (decide (b.startTime ≤ cur) && decide (cur < b.endTime)) ||
            (decide (b.startTime < slotEnd) && decide (slotEnd ≤ b.endTime)))).map
            (fun b => b.id)
        else none })

end BookingsService

/-- `CreateCourtAvailabilityDto`: dates as day indices, optional parsed
`HH:mm` time bounds. -/
structure CreateBlackoutDto where
  courtId : Nat
  startDate : Nat
  endDate : Nat
  startTime : Option (Nat × Nat)
  endTime : Option (Nat × Nat)
  reason : String
  description : Option String
deriving Repr

/-- `UpdateCourtAvailabilityDto`: every field optional. -/
structure UpdateBlackoutDto where
  startDate : Option Nat
  endDate : Option Nat
  startTime : Option (Nat × Nat)
  endTime : Option (Nat × Nat)
  reason : Option String
  description : Option String
deriving Repr

namespace CourtAvailabilityService

/-- `CourtAvailabilityService.create`: court lookup and ownership; reject
`endDate < startDate`; when both time bounds are present reject
`endMinutes <= startMinutes`; persist an active block. -/
def create (st : Store) (userId : Nat) (dto : CreateBlackoutDto) :
    Except Err (Store × Blackout) :=
  match findCourt st dto.courtId with
  | none => .error (.notFound ("Cancha con ID " ++ toString dto.courtId ++ " no encontrada"))
  | some court =>
    if court.complexUserId != userId then
      .error (.forbidden "No tienes permiso para bloquear esta cancha")
    else if decide (dto.endDate < dto.startDate) then
      .error (.badRequest "La fecha de fin debe ser posterior a la fecha de inicio")
    else if (match dto.startTime, dto.endTime with
             | some bs, some be => decide (toMinutes be ≤ toMinutes bs)
             | _, _ => false) then
      .error (.badRequest "La hora de fin debe ser posterior a la hora de inicio")
    else
      let bl : Blackout :=
        { id := st.nextId
          courtId := dto.courtId
          startDate := dto.startDate
          endDate := dto.endDate
          startTime := dto.startTime
          endTime := dto.endTime
          reason := dto.reason
          description := dto.description
          isActive := defaultBlackoutActive
          userId := userId }
      .ok ({ st with nextId := st.nextId + 1, blackouts := st.blackouts ++ [bl] }, bl)

/-- `CourtAvailabilityService.update`: lookup and ownership via `findOne`;
the date-order check runs only when **both** new dates are supplied, and
the time-order check only when **both** new time bounds are supplied; then
every supplied field overwrites the stored one. -/
def update (st : Store) (id userId : Nat) (dto : UpdateBlackoutDto) :
    Except Err (Store × Blackout) :=
  match findBlackout st id with
  | none => .error (.notFound ("Bloqueo con ID " ++ toString id ++ " no encontrado"))
  | some bl =>
    match findCourt st bl.courtId with
    | none => .error (.notFound "Cancha no encontrada")
    | some court =>
      if court.complexUserId != userId then
        .error (.forbidden "No tienes permiso para ver este bloqueo")
      else if (match dto.startDate, dto.endDate with
               | some sd, some ed => decide (ed < sd)
               | _, _ => false) then
        .error (.badRequest "La fecha de fin debe ser posterior a la fecha de inicio")
      else if (match dto.startTime, dto.endTime with
               | some bs, some be => decide (toMinutes be ≤ toMinutes bs)
               | _, _ => false) then
        .error (.badRequest "La hora de fin debe ser posterior a la hora de inicio")
      else
        let nb : Blackout :=
          { bl with
            startDate := dto.startDate.getD bl.startDate
            endDate := dto.endDate.getD bl.endDate
            startTime := match dto.startTime with
              | some t => some t
              | none => bl.startTime
            endTime := match dto.endTime with
              | some t => some t
              | none => bl.endTime
            reason := dto.reason.getD bl.reason
            description := match dto.description with
              | some d => some d
              | none => bl.description }
        .ok ({ st with blackouts := st.blackouts.map (fun b => if b.id == id then nb else b) }, nb)

/-- `CourtAvailabilityService.checkAvailability` (blackouts only): the
first active block containing `day` that covers the whole day or whose
time bounds overlap the requested `HH:mm` interval; `none` means
available. -/
def checkAvailability (st : Store) (courtId day : Nat) (sTime eTime : Nat × Nat) :
    Option Blackout :=
  (activeBlocksOn st courtId day).find?
    (fun bl => blackoutBlocksMinutes bl (toMinutes sTime) (toMinutes eTime))

end CourtAvailabilityService

def pad2 (n : Nat) : String := if n < 10 then "0" ++ toString n else toString n

def hhmm (t : Nat × Nat) : String := pad2 t.1 ++ ":" ++ pad2 t.2

/-- The unavailability message built by
`CourtAvailabilityService.checkAvailability` for a blocking blackout. -/
def blackoutMessage (bl : Blackout) : String :=
  match bl.startTime, bl.endTime with
  | some bs, some be =>
      "Cancha bloqueada de " ++ hhmm bs ++ " a " ++ hhmm be ++ ": " ++ bl.reason
  | _, _ => "Cancha bloqueada: " ++ bl.reason

/-- `CreatePublicBookingDto`: day index, `HH:mm` start and end pairs, and
the app-native discriminator with its optional user/client references. -/
structure CreatePublicBookingDto where
  courtId : Nat
  date : Nat
  startTime : Nat × Nat
  endTime : Nat × Nat
  price : Nat
  isAppNative : Bool
  userId : Option Nat
  clientId : Option Nat
deriving Repr

namespace PublicBookingsController

/-- `PublicBookingsController.createBooking` (`main.ts`): court lookup and
active check; duration positivity; blackout check via
`CourtAvailabilityService.checkAvailability` (a block yields a
`BadRequestException`); three-case conflict query against active bookings
(a conflict also yields a `BadRequestException`); app-native branching for
user/client ids; persist with status and paymentStatus hardcoded to
pending. -/
def createBooking (st : Store) (dto : CreatePublicBookingDto) :
    Except Err (Store × Booking) :=
  match findCourt st dto.courtId with
  | none => .error (.notFound "Cancha no encontrada")
  | some court =>
    if ! court.isActive then .error (.badRequest "La cancha no está activa")
    else
      let startDT := dto.date * 1440 + toMinutes dto.startTime
      let endDT := dto.date * 1440 + toMinutes dto.endTime
      if decide (endDT ≤ startDT) then
        .error (.badRequest "La hora de fin debe ser posterior a la hora de inicio")
      else match CourtAvailabilityService.checkAvailability st dto.courtId dto.date
          dto.startTime dto.endTime with
        | some bl => .error (.badRequest ("Cancha no disponible: " ++ blackoutMessage bl))
        | none =>
          if st.bookings.any (fun b =>
              b.courtId == dto.courtId && isActiveStatus b.status &&
              overlapsCand b.startTime b.endTime startDT endDT) then
            .error (.badRequest "Ya existe una reserva en ese horario")
          else
            let mk : Nat → Option Nat → Except Err (Store × Booking) :=
              fun finalUserId finalClientId =>
                let bk : Booking :=
                  { id := st.nextId
                    courtId := dto.courtId
                    clientId := finalClientId
                    userId := finalUserId
                    bookingDate := dto.date * 1440
                    startTime := startDT
                    endTime := endDT
                    duration := endDT - startDT
                    price := dto.price
                    status := .pending
                    paymentStatus := .pending
                    isAppNative := dto.isAppNative }
                .ok ({ st with nextId := st.nextId + 1, bookings := st.bookings ++ [bk] }, bk)
            if dto.isAppNative then
              match dto.userId with
              | none => .error (.badRequest "userId es requerido para reservas desde app nativa")
              | some u => mk u dto.clientId
            else
              match dto.clientId with
              | none => .error (.badRequest "clientId es requerido para reservas desde dashboard")
              | some c => mk (dto.userId.getD court.complexUserId) (some c)

end PublicBookingsController

/-- A slot of the public available-slots endpoint: interval in minutes of
day, availability flag and optional unavailability reason. -/
structure PubSlot where
  startMin : Nat
  endMin : Nat
  available : Bool
  reason : Option String
deriving DecidableEq, Repr

/-- The slot grid of the public endpoint: the double loop
`for hour in 6..<23, for minute in [0, 30]`, as minutes of day. -/
def pubSlotStarts : List Nat :=
  ((List.range 17).map (fun k => 6 + k)).flatMap (fun hour => [hour * 60, hour * 60 + 30])

namespace PublicCourtsController

/-- `PublicCourtsController.getAvailableSlots`: court lookup, fetch active
same-day bookings and in-range active blackouts, then per slot: first
blackout that covers the whole day or overlaps the slot's minutes makes it
unavailable with reason `Bloqueado: <reason>`; otherwise an overlapping
booking makes it unavailable with reason `Reserva existente`. -/
def getAvailableSlots (st : Store) (courtId day : Nat) :
    Except Err (List PubSlot) :=
  match findCourt st courtId with
  | none => .error (.notFound ("Cancha con ID " ++ toString courtId ++ " no encontrada"))
  | some _ =>
    let bookings := bookingsOfDay st courtId day
    let blocks := activeBlocksOn st courtId day
    .ok (pubSlotStarts.map (fun m =>
      match blocks.find? (fun bl => blackoutBlocksMinutes bl m (m + 30)) with
      | some bl =>
          { startMin := m, endMin := m + 30, available := false,
            reason := some ("Bloqueado: " ++ bl.reason) }
      | none =>
          if bookings.any (fun b =>
              overlapsCand b.startTime b.endTime (day * 1440 + m) (day * 1440 + m + 30)) then
            { startMin := m, endMin := m + 30, available := false,
              reason := some "Reserva existente" }
          else
            { startMin := m, endMin := m + 30, available := true, reason := none }))

end PublicCourtsController

/-- The minute-overlap disjunction as written at
`bookings.service.ts:427-431` and `court-availability.service.ts:300-303`,
over integers as in the claim. -/
def overlapsCasesInt (aStart aEnd bStart bEnd : Int) : Bool :=
  (decide (bStart ≥ aStart) && decide (bStart < aEnd)) ||
  (decide (bEnd > aStart) && decide (bEnd ≤ aEnd)) ||
  (decide (bStart ≤ aStart) && decide (bEnd ≥ aEnd))

/-- The simple symmetric half-open overlap test `aStart < bEnd && bStart < aEnd`. -/
def overlapsSimpleInt (aStart aEnd bStart bEnd : Int) : Bool :=
  decide (aStart < bEnd) && decide (bStart < aEnd)

/-- Whether a store holds two distinct overlapping active bookings on one
court — the violation of the core no-double-booking invariant. -/
def activePairViolation (s : Store) : Bool :=
  s.bookings.any (fun a => s.bookings.any (fun b =>
    a.id != b.id && a.courtId == b.courtId &&
    isActiveStatus a.status && isActiveStatus b.status &&
    decide (a.startTime < b.endTime) && decide (b.startTime < a.endTime)))

/-- A minimal tenant: one active court (id 1) and one client (id 1), both
owned by user 1, with empty booking and blackout tables. -/
def baseStore : Store :=
  { nextId := 0
    bookings := []
    blackouts := []
    courts := [{ id := 1, complexUserId := 1, isActive := true }]
    clients := [{ id := 1, userId := 1 }] }

/-- An all-default update DTO (every field absent). -/
def emptyUpdateDto : UpdateBookingDto :=
  { bookingDate := none, startTime := none, endTime := none, duration := none,
    price := none, courtId := none, clientId := none, status := none,
    paymentStatus := none }

def c1DtoA : CreateBookingDto :=
  { bookingDate := 0, startTime := 600, endTime := 660, duration := 60, price := 0,
    courtId := 1, clientId := 1, status := some .cancelled, paymentStatus := none }

def c1DtoB : CreateBookingDto :=
  { bookingDate := 0, startTime := 600, endTime := 660, duration := 60, price := 0,
    courtId := 1, clientId := 1, status := none, paymentStatus := none }

/-- Create a cancelled booking on `[600, 660)`, create a second active
booking on the same window (allowed: the first is inactive), then update
the first one's status to confirmed — a pure status update triggers no
availability check. -/
def c1FinalStore : Except Err Store := do
  let (s1, _) ← BookingsService.create baseStore 1 c1DtoA
  let (s2, _) ← BookingsService.create s1 1 c1DtoB
  let (s3, _) ← BookingsService.update s2 0 1 { emptyUpdateDto with status := some .confirmed }
  pure s3

def c6Dto : CreateBookingDto :=
  { bookingDate := 0, startTime := 600, endTime := 660, duration := 60, price := 0,
    courtId := 1, clientId := 1, status := some .confirmed, paymentStatus := some .paid }

def c6WitnessDto : CreateBookingDto :=
  { bookingDate := 0, startTime := 720, endTime := 780, duration := 60, price := 0,
    courtId := 1, clientId := 1, status := none, paymentStatus := none }

/-- The booking `BookingsService.create baseStore 1 c6WitnessDto` persists. -/
def c6WitnessBooking : Booking :=
  { id := 0, courtId := 1, clientId := some 1, userId := 1, bookingDate := 0,
    startTime := 720, endTime := 780, duration := 60, price := 0,
    status := .pending, paymentStatus := .pending, isAppNative := false }

def c6WitnessPubDto : CreatePublicBookingDto :=
  { courtId := 1, date := 0, startTime := (14, 0), endTime := (15, 0), price := 0,
    isAppNative := false, userId := none, clientId := some 1 }

/-- The booking the public create of `c6WitnessPubDto` persists. -/
def c6WitnessPubBooking : Booking :=
  { id := 0, courtId := 1, clientId := some 1, userId := 1, bookingDate := 0,
    startTime := 840, endTime := 900, duration := 60, price := 0,
    status := .pending, paymentStatus := .pending, isAppNative := false }

/-- A store whose court 1 already holds a confirmed booking on `[600, 660)`
(10:00–11:00 of day 0). -/
def storeWithBooking : Store :=
  { baseStore with
    nextId := 1
    bookings := [{ id := 0, courtId := 1, clientId := some 1, userId := 1,
                   bookingDate := 0, startTime := 600, endTime := 660, duration := 60,
                   price := 0, status := .confirmed, paymentStatus := .pending,
                   isAppNative := false }] }

def c7Dto : CreateBookingDto :=
  { bookingDate := 0, startTime := 600, endTime := 660, duration := 60, price := 0,
    courtId := 1, clientId := 1, status := none, paymentStatus := none }

def c7PubDto : CreatePublicBookingDto :=
  { courtId := 1, date := 0, startTime := (10, 0), endTime := (11, 0), price := 0,
    isAppNative := false, userId := none, clientId := some 1 }

/-- A store whose court 1 has a full-day active blackout over days 20–25. -/
def storeWithFullDayBlock : Store :=
  { baseStore with
    nextId := 1
    blackouts := [{ id := 0, courtId := 1, startDate := 20, endDate := 25,
                    startTime := none, endTime := none, reason := "maintenance",
                    description := none, isActive := true, userId := 1 }] }

/-- A store whose court 1 has an active blackout on days 20–25 bounded to
14:00–18:00. -/
def storeWithTimedBlock : Store :=
  { baseStore with
    nextId := 1
    blackouts := [{ id := 0, courtId := 1, startDate := 20, endDate := 25,
                    startTime := some (14, 0), endTime := some (18, 0),
                    reason := "private_event", description := none, isActive := true,
                    userId := 1 }] }

/-- The public slot listing of `storeWithTimedBlock` for day 22. -/
def c4WitnessSlots : List PubSlot :=
  (PublicCourtsController.getAvailableSlots storeWithTimedBlock 1 22).toOption.getD []

/-- A store whose court 1 holds an active booking on `[840, 900)`
(14:00–15:00 of day 0) — the half-open boundary example store. -/
def c2BoundaryStore : Store :=
  { baseStore with
    nextId := 1
    bookings := [{ id := 0, courtId := 1, clientId := some 1, userId := 1,
                   bookingDate := 0, startTime := 840, endTime := 900, duration := 60,
                   price := 0, status := .confirmed, paymentStatus := .pending,
                   isAppNative := false }] }

def c9CreateDto : CreateBlackoutDto :=
  { courtId := 1, startDate := 10, endDate := 12, startTime := none, endTime := none,
    reason := "maintenance", description := none }

def c9UpdateDto : UpdateBlackoutDto :=
  { startDate := some 20, endDate := none, startTime := none, endTime := none,
    reason := none, description := none }

/-- Create a blackout over days 10–12, then move only its `startDate` to
day 20: the update validates date order only when both dates are supplied,
so the stored record ends with `endDate < startDate`. -/
def c9FinalStore : Except Err Store := do
  let (s1, b1) ← CourtAvailabilityService.create baseStore 1 c9CreateDto
  let (s2, _) ← CourtAvailabilityService.update s1 b1.id 1 c9UpdateDto
  pure s2

def c9WitnessDto : CreateBlackoutDto :=
  { courtId := 1, startDate := 5, endDate := 6, startTime := some (9, 0),
    endTime := some (11, 30), reason := "weather", description := none }

def c9WitnessUpdateDto : UpdateBlackoutDto :=
  { startDate := some 7, endDate := some 8, startTime := some (10, 0),
    endTime := some (12, 0), reason := none, description := none }

/-- The blackout `CourtAvailabilityService.create baseStore 1 c9WitnessDto` persists. -/
def c9CreatedBlackout : Blackout :=
  { id := 0, courtId := 1, startDate := 5, endDate := 6, startTime := some (9, 0),
    endTime := some (11, 30), reason := "weather", description := none,
    isActive := true, userId := 1 }

/-- `baseStore` after that create. -/
def c9WitnessStore : Store :=
  { baseStore with
    nextId := 1
    blackouts := [c9CreatedBlackout] }

/-- The blackout after the full update `c9WitnessUpdateDto`. -/
def c9UpdatedBlackout : Blackout :=
  { c9CreatedBlackout with
    startDate := 7
    endDate := 8
    startTime := some (10, 0)
    endTime := some (12, 0) }

/-- `c9WitnessStore` after that update. -/
def c9UpdatedStore : Store :=
  { c9WitnessStore with blackouts := [c9UpdatedBlackout] }

/-- A store whose court 1 holds an active 20-minute booking `[365, 385)`
lying strictly inside the first slot `[360, 390)` of day 0. -/
def c10Store : Store :=
  { baseStore with
    nextId := 1
    bookings := [{ id := 0, courtId := 1, clientId := some 1, userId := 1,
                   bookingDate := 0, startTime := 365, endTime := 385, duration := 20,
                   price := 0, status := .pending, paymentStatus := .pending,
                   isAppNative := false }] }

/-- The record `cancelBooking` writes back: status cancelled, payment
status refunded when it was paid, else pending. -/
def cancelledOf (bk : Booking) : Booking :=
  { bk with
    status := .cancelled
    paymentStatus := if bk.paymentStatus == .paid then .refunded else .pending }

theorem tile30_eq (n : Nat) : ∀ c, tile30 (c + 30 * n) c = (List.range n).map (fun i => c + 30 * i) := by
  induction n with
  | zero =>
    intro c
    rw [tile30]
    simp
  | succ k ih =>
    intro c
    rw [tile30]
    have h1 : c < c + 30 * (k + 1) := by omega
    simp only [if_pos h1]
    have h2 : c + 30 * (k + 1) = (c + 30) + 30 * k := by ring
    rw [h2, ih (c + 30), List.range_succ_eq_map, List.map_cons, List.map_map]
    have h3 : (fun i => c + 30 + 30 * i) = ((fun i => c + 30 * i) ∘ Nat.succ) := by
      funext i
      simp only [Function.comp]
      omega
    rw [h3]
    simp

/-- The 06:00–23:00 window of any day tiles into the 34 half-hour starts. -/
theorem tile30_day_eq (day : Nat) :
    tile30 (day * 1440 + 1380) (day * 1440 + 360) =
      (List.range 34).map (fun i => day * 1440 + 360 + 30 * i) := by
  have h : day * 1440 + 1380 = (day * 1440 + 360) + 30 * 34 := by ring
  rw [h, tile30_eq]

/-- For nonempty intervals, the three-case test is the symmetric half-open
overlap. -/
theorem overlapsCand_true_iff (bS bE s e : Nat) (hb : bS < bE) (hc : s < e) :
    overlapsCand bS bE s e = true ↔ (bS < e ∧ s < bE) := by
  simp only [overlapsCand, Bool.or_eq_true, Bool.and_eq_true, decide_eq_true_eq]
  omega

/-- The conflict filter of `checkTimeSlotAvailability`, in semantic form
(for a well-formed stored booking and a nonempty candidate). -/
theorem bookingConflictsWith_iff (courtId s e : Nat) (excl : Option Nat) (b : Booking)
    (hb : b.startTime < b.endTime) (hse : s < e) :
    bookingConflictsWith courtId s e excl b = true ↔
      (b.courtId = courtId ∧ isActiveStatus b.status = true ∧
        (∀ i, excl = some i → b.id ≠ i) ∧ b.startTime < e ∧ s < b.endTime) := by
  cases excl with
  | none =>
    simp only [bookingConflictsWith, Bool.and_eq_true, beq_iff_eq, Bool.and_true,
      overlapsCand_true_iff _ _ _ _ hb hse]
    constructor
    · rintro ⟨⟨h1, h2⟩, h3⟩
      exact ⟨h1, h2, (by intro i h; cases h), h3.1, h3.2⟩
    · rintro ⟨h1, h2, _, h3, h4⟩
      exact ⟨⟨h1, h2⟩, h3, h4⟩
  | some j =>
    simp only [bookingConflictsWith, Bool.and_eq_true, beq_iff_eq, bne_iff_ne,
      overlapsCand_true_iff _ _ _ _ hb hse]
    constructor
    · rintro ⟨⟨⟨h1, h2⟩, h3⟩, h4⟩
      refine ⟨h1, h2, ?_, h4.1, h4.2⟩
      intro i h
      cases h
      exact h3
    · rintro ⟨h1, h2, h3, h4, h5⟩
      exact ⟨⟨⟨h1, h2⟩, h3 j rfl⟩, h4, h5⟩

/-- The per-block blocking test of the blackout loop, in semantic form (for
a well-formed block and a nonempty candidate minute interval). -/
theorem blackoutBlocksMinutes_iff (bl : Blackout) (ms me : Nat) (h : ms < me)
    (hwf : ∀ bs be, bl.startTime = some bs → bl.endTime = some be →
      toMinutes bs < toMinutes be) :
    blackoutBlocksMinutes bl ms me = true ↔
      ((bl.startTime = none ∨ bl.endTime = none) ∨
        (∃ bs be, bl.startTime = some bs ∧ bl.endTime = some be ∧
          ms < toMinutes be ∧ toMinutes bs < me)) := by
  cases hs : bl.startTime with
  | none => simp [blackoutBlocksMinutes, hs]
  | some bs =>
    cases he : bl.endTime with
    | none => simp [blackoutBlocksMinutes, hs, he]
    | some be =>
      have hwfb := hwf bs be hs he
      simp only [blackoutBlocksMinutes, hs, he, overlapsCand_true_iff _ _ _ _ hwfb h]
      constructor
      · intro hov
        exact Or.inr ⟨bs, be, rfl, rfl, hov.2, hov.1⟩
      · rintro (hnone | ⟨bs2, be2, hbs2, hbe2, h1, h2⟩)
        · cases hnone <;> simp_all
        · cases hbs2
          cases hbe2
          exact ⟨h2, h1⟩

/-- Claim C3: for nonempty integer intervals the three-case disjunction used
throughout the code coincides with the simple symmetric half-open test. -/
theorem c3_overlap_cases_equiv_simple (aStart aEnd bStart bEnd : Int)
    (ha : aStart < aEnd) (hb : bStart < bEnd) :
    overlapsCasesInt aStart aEnd bStart bEnd = overlapsSimpleInt aStart aEnd bStart bEnd := by
  have h : overlapsCasesInt aStart aEnd bStart bEnd = true ↔
      overlapsSimpleInt aStart aEnd bStart bEnd = true := by
    simp only [overlapsCasesInt, overlapsSimpleInt, Bool.or_eq_true, Bool.and_eq_true,
      decide_eq_true_eq]
    omega
  cases hcs : overlapsCasesInt aStart aEnd bStart bEnd <;>
    cases hsm : overlapsSimpleInt aStart aEnd bStart bEnd <;>
    simp_all

/-- Witness for C3 at a concrete input. -/
theorem c3_overlap_cases_equiv_simple_witness :
    (0 : Int) < 10 ∧ (5 : Int) < 15 ∧
      overlapsCasesInt 0 10 5 15 = overlapsSimpleInt 0 10 5 15 :=
  ⟨by decide, by decide, c3_overlap_cases_equiv_simple 0 10 5 15 (by decide) (by decide)⟩

/-- Claim C1 (the code violates it): after the successful sequence
create–create–update of `c1FinalStore`, court 1 holds two distinct active
bookings both covering `[600, 660)` — the update path re-checks
availability only when a time field changes, so a pure status update
resurrects a cancelled booking into a double booking. -/
theorem c1_invariant_fails :
    c1FinalStore.toOption.map activePairViolation = some true := by decide

/-- Claim C10: in the dashboard slot listing for `c10Store`, the slot
`[360, 390)` is marked unavailable (the containment case of the occupancy
test fires for the booking `[365, 385)` lying strictly inside it) yet its
`bookingId` is `none`, because the id lookup omits the containment case. -/
theorem c10_contained_booking_id_missing :
    (BookingsService.getAvailableSlots c10Store 1 0).head? =
      some { startMin := 360, endMin := 390, available := false, bookingId := none } := by
  simp only [BookingsService.getAvailableSlots]
  rw [tile30_day_eq 0]
  decide

/-- Counterexample to claim C4 as stated: in `storeWithFullDayBlock`,
court 1 carries an active full-day blackout whose date range contains
day 22, so the claim requires every slot of the dashboard slot listing for
that day to be unavailable — yet every slot it returns is available,
because the dashboard listing never consults blackouts. -/
theorem c4_dashboard_ignores_blackouts :
    (∃ bl ∈ storeWithFullDayBlock.blackouts,
      bl.courtId = 1 ∧ bl.isActive = true ∧ bl.startDate ≤ 22 ∧ 22 ≤ bl.endDate ∧
      bl.startTime = none ∧ bl.endTime = none) ∧
    (BookingsService.getAvailableSlots storeWithFullDayBlock 1 22).all
      (fun sl => sl.available) = true := by
  constructor
  · decide
  · simp only [BookingsService.getAvailableSlots]
    rw [tile30_day_eq 22]
    decide

/-- Counterexample to claim C6 as stated: the dashboard create spreads the
caller's DTO, so creating with `status = confirmed` and
`paymentStatus = paid` persists exactly those values, not `pending`. -/
theorem c6_dashboard_create_keeps_caller_status :
    (BookingsService.create baseStore 1 c6Dto).toOption.map
        (fun p => (p.2.status, p.2.paymentStatus)) =
      some (BStatus.confirmed, PStatus.paid) ∧
    BStatus.confirmed ≠ BStatus.pending := by
  exact ⟨by decide, by decide⟩

/-- Counterexample to claim C7 as stated: with the confirmed booking
`[600, 660)` of `storeWithBooking` in place, the dashboard create of the
same window signals a `ConflictException` while the public create of the
same window signals a `BadRequestException` — the two paths do not raise
the same domain-level error. -/
theorem c7_conflict_error_kinds_differ :
    errKindOf (BookingsService.create storeWithBooking 1 c7Dto) = some ErrKind.conflictK ∧
    errKindOf (PublicBookingsController.createBooking storeWithBooking c7PubDto) =
      some ErrKind.badRequestK ∧
    ErrKind.conflictK ≠ ErrKind.badRequestK := by
  exact ⟨by decide, by decide, by decide⟩

/-- Counterexample to claim C9 as stated: the successful
create-then-partial-update sequence of `c9FinalStore` leaves a stored
blackout whose `endDate` (12) is strictly below its `startDate` (20),
because the update validates date order only when both dates are supplied. -/
theorem c9_partial_update_breaks_date_invariant :
    c9FinalStore.toOption.map
        (fun s => s.blackouts.any (fun bl => decide (bl.endDate < bl.startDate))) =
      some true := by
  decide

/-- Claim C2: the availability check returns false exactly when an active
non-excluded booking on the court overlaps the half-open candidate
interval, or an active blackout whose inclusive date range contains the
candidate's day has a missing time bound or time bounds overlapping the
candidate's minutes-of-day interval; and the half-open boundary examples:
a candidate `[15:00, 16:00)` does not conflict with the stored
`[14:00, 15:00)` booking, while a candidate `[14:30, 15:30)` does. -/
theorem c2_checkTimeSlotAvailability_iff :
    (∀ (st : Store) (courtId s e : Nat) (excl : Option Nat),
      (∀ b ∈ st.bookings, b.startTime < b.endTime) →
      (∀ bl ∈ st.blackouts, ∀ bs be, bl.startTime = some bs → bl.endTime = some be →
        toMinutes bs < toMinutes be) →
      dayOf s = dayOf e → s < e →
      (BookingsService.checkTimeSlotAvailability st courtId s e excl = false ↔
        (∃ b ∈ st.bookings, b.courtId = courtId ∧ isActiveStatus b.status = true ∧
          (∀ i, excl = some i → b.id ≠ i) ∧ b.startTime < e ∧ s < b.endTime) ∨
        (∃ bl ∈ st.blackouts, bl.courtId = courtId ∧ bl.isActive = true ∧
          bl.startDate ≤ dayOf s ∧ dayOf s ≤ bl.endDate ∧
          ((bl.startTime = none ∨ bl.endTime = none) ∨
            (∃ bs be, bl.startTime = some bs ∧ bl.endTime = some be ∧
              minOfDay s < toMinutes be ∧ toMinutes bs < minOfDay e))))) ∧
    BookingsService.checkTimeSlotAvailability c2BoundaryStore 1 900 960 none = true ∧
    BookingsService.checkTimeSlotAvailability c2BoundaryStore 1 870 930 none = false := by
  refine ⟨?_, by decide, by decide⟩
  intro st courtId s e excl hwfB hwfBl hday hse
  have hmin : minOfDay s < minOfDay e := by
    unfold dayOf at hday
    unfold minOfDay
    omega
  unfold BookingsService.checkTimeSlotAvailability
  cases hany : st.bookings.any (bookingConflictsWith courtId s e excl) with
  | true =>
    simp only [if_pos rfl, if_true]
    constructor
    · intro _
      left
      rw [List.any_eq_true] at hany
      obtain ⟨b, hbmem, hcond⟩ := hany
      exact ⟨b, hbmem, (bookingConflictsWith_iff courtId s e excl b (hwfB b hbmem) hse).mp hcond⟩
    · intro _
      trivial
  | false =>
    simp only [Bool.false_eq_true, if_false]
    constructor
    · intro hall
      right
      have hget : ∃ bl ∈ activeBlocksOn st courtId (dayOf s),
          ¬ ((! blackoutBlocksMinutes bl (minOfDay s) (minOfDay e)) = true) := by
        by_contra hcon
        push_neg at hcon
        have : (activeBlocksOn st courtId (dayOf s)).all
            (fun bl => ! blackoutBlocksMinutes bl (minOfDay s) (minOfDay e)) = true := by
          rw [List.all_eq_true]
          intro bl hbl
          have := hcon bl hbl
          cases hb : (! blackoutBlocksMinutes bl (minOfDay s) (minOfDay e)) <;> simp_all
        rw [this] at hall
        cases hall
      obtain ⟨bl, hblmem, hnot⟩ := hget
      have hblocked : blackoutBlocksMinutes bl (minOfDay s) (minOfDay e) = true := by
        cases hb : blackoutBlocksMinutes bl (minOfDay s) (minOfDay e) <;> simp_all
      rw [activeBlocksOn, List.mem_filter] at hblmem
      obtain ⟨hmem, hcond⟩ := hblmem
      simp only [Bool.and_eq_true, beq_iff_eq, decide_eq_true_eq] at hcond
      exact ⟨bl, hmem, hcond.1.1.1, hcond.1.1.2, hcond.1.2, hcond.2,
        (blackoutBlocksMinutes_iff bl (minOfDay s) (minOfDay e) hmin (hwfBl bl hmem)).mp hblocked⟩
    · rintro (⟨b, hbmem, hprops⟩ | ⟨bl, hblmem, h1, h2, h3, h4, h5⟩)
      · exfalso
        have : st.bookings.any (bookingConflictsWith courtId s e excl) = true := by
          rw [List.any_eq_true]
          exact ⟨b, hbmem,
            (bookingConflictsWith_iff courtId s e excl b (hwfB b hbmem) hse).mpr hprops⟩
        rw [this] at hany
        cases hany
      · have hblocked : blackoutBlocksMinutes bl (minOfDay s) (minOfDay e) = true :=
          (blackoutBlocksMinutes_iff bl (minOfDay s) (minOfDay e) hmin (hwfBl bl hblmem)).mpr h5
        have hblin : bl ∈ activeBlocksOn st courtId (dayOf s) := by
          rw [activeBlocksOn, List.mem_filter]
          refine ⟨hblmem, ?_⟩
          simp only [Bool.and_eq_true, beq_iff_eq, decide_eq_true_eq]
          exact ⟨⟨⟨h1, h2⟩, h3⟩, h4⟩
        cases hall : (activeBlocksOn st courtId (dayOf s)).all
            (fun bl => ! blackoutBlocksMinutes bl (minOfDay s) (minOfDay e)) with
        | false => rfl
        | true =>
          exfalso
          rw [List.all_eq_true] at hall
          have := hall bl hblin
          rw [hblocked] at this
          cases this

/-- Witness for C2: the boundary store satisfies the well-formedness
hypotheses and the iff evaluates correctly on the unavailable candidate
`[870, 930)` against the stored `[840, 900)` booking. -/
theorem c2_checkTimeSlotAvailability_iff_witness :
    BookingsService.checkTimeSlotAvailability c2BoundaryStore 1 870 930 none = false ↔
      ((∃ b ∈ c2BoundaryStore.bookings, b.courtId = 1 ∧ isActiveStatus b.status = true ∧
        (∀ i, (none : Option Nat) = some i → b.id ≠ i) ∧ b.startTime < 930 ∧ 870 < b.endTime) ∨
      (∃ bl ∈ c2BoundaryStore.blackouts, bl.courtId = 1 ∧ bl.isActive = true ∧
        bl.startDate ≤ dayOf 870 ∧ dayOf 870 ≤ bl.endDate ∧
        ((bl.startTime = none ∨ bl.endTime = none) ∨
          (∃ bs be, bl.startTime = some bs ∧ bl.endTime = some be ∧
            minOfDay 870 < toMinutes be ∧ toMinutes bs < minOfDay 930)))) :=
  c2_checkTimeSlotAvailability_iff.1 c2BoundaryStore 1 870 930 none
    (by decide) (by intro bl hbl; cases hbl) (by decide) (by decide)

/-- Claim C5: for every store, court and day, the dashboard slot listing
produces exactly 34 slots whose starts are `06:00 + 30·i` of the day (so
they are contiguous and non-overlapping, the first starting at 06:00),
each slot ends 30 minutes after it starts, no slot extends past 23:00 and
the last one ends exactly at 23:00; and the public endpoint's slot grid is
the same 34 half-hour starts in minutes of day. -/
theorem c5_slot_projection_tiles_window (st : Store) (courtId day : Nat) :
    (BookingsService.getAvailableSlots st courtId day).map (fun sl => sl.startMin) =
      (List.range 34).map (fun i => day * 1440 + 360 + 30 * i) ∧
    (BookingsService.getAvailableSlots st courtId day).length = 34 ∧
    (∀ sl ∈ BookingsService.getAvailableSlots st courtId day,
      sl.endMin = sl.startMin + 30 ∧ sl.endMin ≤ day * 1440 + 1380) ∧
    (∃ sl ∈ BookingsService.getAvailableSlots st courtId day,
      sl.endMin = day * 1440 + 1380) ∧
    pubSlotStarts = (List.range 34).map (fun i => 360 + 30 * i) := by
  refine ⟨?_, ?_, ?_, ?_, by decide⟩
  · simp only [BookingsService.getAvailableSlots]
    rw [tile30_day_eq day, List.map_map, List.map_map]
    apply List.map_congr_left
    intro i _
    rfl
  · simp only [BookingsService.getAvailableSlots]
    rw [tile30_day_eq day]
    simp
  · simp only [BookingsService.getAvailableSlots]
    rw [tile30_day_eq day]
    intro sl hsl
    rw [List.mem_map] at hsl
    obtain ⟨cur, hcur, hmk⟩ := hsl
    rw [List.mem_map] at hcur
    obtain ⟨i, hi, hcureq⟩ := hcur
    rw [List.mem_range] at hi
    subst hmk
    refine ⟨rfl, ?_⟩
    simp only
    omega
  · simp only [BookingsService.getAvailableSlots]
    rw [tile30_day_eq day]
    refine ⟨_, List.mem_map_of_mem _ (List.mem_map_of_mem _ (?_ : 33 ∈ List.range 34)), ?_⟩
    · rw [List.mem_range]
      omega
    · show day * 1440 + 360 + 30 * 33 + 30 = day * 1440 + 1380
      omega

/-- Claim C8: cancelling a booking that is already cancelled or completed
fails with a bad-request (invalid state) error and nothing changes;
otherwise the booking's status becomes cancelled and its payment status
becomes refunded when it was paid and pending otherwise. -/
theorem c8_cancelBooking_transitions (st : Store) (id u : Nat) (bk : Booking)
    (hfind : findBooking st id = some bk) (hown : bk.userId = u) :
    ((bk.status = BStatus.cancelled ∨ bk.status = BStatus.completed) →
      ∃ m, BookingsService.cancelBooking st id u = .error (Err.badRequest m)) ∧
    (bk.status ≠ BStatus.cancelled → bk.status ≠ BStatus.completed →
      BookingsService.cancelBooking st id u =
        .ok ({ st with bookings :=
                 st.bookings.map (fun b => if b.id == id then cancelledOf bk else b) },
             cancelledOf bk)) := by
  subst hown
  unfold BookingsService.cancelBooking
  rw [hfind]
  simp only [bne_self_eq_false, Bool.false_eq_true, if_false]
  constructor
  · rintro (hc | hc) <;> rw [hc] <;> exact ⟨_, rfl⟩
  · intro h1 h2
    have hb1 : (bk.status == BStatus.cancelled) = false := by
      cases hst : bk.status <;> first | decide | simp_all
    have hb2 : (bk.status == BStatus.completed) = false := by
      cases hst : bk.status <;> first | decide | simp_all
    rw [hb1, hb2]
    simp only [Bool.false_eq_true, if_false]
    rfl

/-- Witness for C8: cancelling the confirmed, unpaid booking of
`storeWithBooking` succeeds and leaves it cancelled with payment status
pending. -/
theorem c8_cancelBooking_transitions_witness :
    (BookingsService.cancelBooking storeWithBooking 0 1).toOption.map
      (fun p => (p.2.status, p.2.paymentStatus)) =
      some (BStatus.cancelled, PStatus.pending) := by
  rw [(c8_cancelBooking_transitions storeWithBooking 0 1
    { id := 0, courtId := 1, clientId := some 1, userId := 1, bookingDate := 0,
      startTime := 600, endTime := 660, duration := 60, price := 0,
      status := .confirmed, paymentStatus := .pending, isAppNative := false }
    rfl rfl).2 (by decide) (by decide)]
  rfl

/-- Claim C6, amended: the public (app-native) create persists every
booking with status pending and paymentStatus pending; the dashboard
create persists the caller-supplied status and paymentStatus when present
and falls back to the pending defaults only when they are absent. -/
theorem c6_amended_created_status (st : Store) :
    (∀ (u : Nat) (dto : CreateBookingDto) (st2 : Store) (bk : Booking),
      BookingsService.create st u dto = .ok (st2, bk) →
      bk.status = dto.status.getD defaultBookingStatus ∧
      bk.paymentStatus = dto.paymentStatus.getD defaultPaymentStatus) ∧
    (∀ (dto : CreatePublicBookingDto) (st2 : Store) (bk : Booking),
      PublicBookingsController.createBooking st dto = .ok (st2, bk) →
      bk.status = BStatus.pending ∧ bk.paymentStatus = PStatus.pending) := by
  constructor
  · intro u dto st2 bk h
    unfold BookingsService.create at h
    simp only [] at h
    repeat' split at h
    all_goals simp only [Except.ok.injEq, Prod.mk.injEq, reduceCtorEq] at h
    obtain ⟨h1, h2⟩ := h
    subst h2
    exact ⟨rfl, rfl⟩
  · intro dto st2 bk h
    unfold PublicBookingsController.createBooking at h
    simp only [] at h
    repeat' split at h
    all_goals simp only [Except.ok.injEq, Prod.mk.injEq, reduceCtorEq] at h
    all_goals obtain ⟨h1, h2⟩ := h
    all_goals subst h2
    all_goals exact ⟨rfl, rfl⟩

/-- Witness for C6: concrete successful creates on both paths, with the
pending defaults on the dashboard path. -/
theorem c6_amended_created_status_witness :
    BookingsService.create baseStore 1 c6WitnessDto =
      .ok ({ baseStore with nextId := 1, bookings := [c6WitnessBooking] }, c6WitnessBooking) ∧
    c6WitnessBooking.status = c6WitnessDto.status.getD defaultBookingStatus ∧
    PublicBookingsController.createBooking baseStore c6WitnessPubDto =
      .ok ({ baseStore with nextId := 1, bookings := [c6WitnessPubBooking] },
        c6WitnessPubBooking) ∧
    c6WitnessPubBooking.status = BStatus.pending := by
  refine ⟨rfl, ?_, rfl, ?_⟩
  · exact ((c6_amended_created_status baseStore).1 1 c6WitnessDto
      { baseStore with nextId := 1, bookings := [c6WitnessBooking] } c6WitnessBooking
      rfl).1
  · exact ((c6_amended_created_status baseStore).2 c6WitnessPubDto
      { baseStore with nextId := 1, bookings := [c6WitnessPubBooking] } c6WitnessPubBooking
      rfl).1

/-- Claim C9, amended: a blackout produced by a successful create satisfies
`startDate ≤ endDate` and, when both time bounds are present, a strictly
increasing minute interval; an update that supplies **both** dates and
**both** time bounds also yields a record satisfying both invariants.  (A
partial update supplying only one field of a pair is not checked against
the stored value and can break the invariants, as the counterexample
shows.) -/
theorem c9_amended_blackout_validation :
    (∀ (st : Store) (u : Nat) (dto : CreateBlackoutDto) (st2 : Store) (bl : Blackout),
      CourtAvailabilityService.create st u dto = .ok (st2, bl) →
      bl.startDate ≤ bl.endDate ∧
      (∀ bs be, bl.startTime = some bs → bl.endTime = some be →
        toMinutes bs < toMinutes be)) ∧
    (∀ (st : Store) (id u : Nat) (dto : UpdateBlackoutDto) (sd ed : Nat)
        (ts te : Nat × Nat) (st2 : Store) (bl : Blackout),
      dto.startDate = some sd → dto.endDate = some ed →
      dto.startTime = some ts → dto.endTime = some te →
      CourtAvailabilityService.update st id u dto = .ok (st2, bl) →
      bl.startDate ≤ bl.endDate ∧
      (∀ bs be, bl.startTime = some bs → bl.endTime = some be →
        toMinutes bs < toMinutes be)) := by
  constructor
  · intro st u dto st2 bl h
    unfold CourtAvailabilityService.create at h
    cases hc : findCourt st dto.courtId with
    | none => simp [hc] at h
    | some court =>
      simp only [hc] at h
      cases h1 : (court.complexUserId != u) with
      | true => rw [h1] at h; simp at h
      | false =>
        rw [h1] at h
        cases h2 : decide (dto.endDate < dto.startDate) with
        | true => rw [h2] at h; simp at h
        | false =>
          rw [h2] at h
          cases h3 : (match dto.startTime, dto.endTime with
            | some bs, some be => decide (toMinutes be ≤ toMinutes bs)
            | _, _ => false) with
          | true => rw [h3] at h; simp at h
          | false =>
            rw [h3] at h
            simp only [Bool.false_eq_true, if_false, Except.ok.injEq, Prod.mk.injEq] at h
            obtain ⟨hst2, hbl⟩ := h
            subst hbl
            constructor
            · show dto.startDate ≤ dto.endDate
              have hn := of_decide_eq_false h2
              omega
            · intro bs be hbs hbe
              have hbs2 : dto.startTime = some bs := hbs
              have hbe2 : dto.endTime = some be := hbe
              rw [hbs2, hbe2] at h3
              have hn := of_decide_eq_false h3
              omega
  · intro st id u dto sd ed ts te st2 bl hsd hed hts hte h
    unfold CourtAvailabilityService.update at h
    cases hf : findBlackout st id with
    | none => simp [hf] at h
    | some bl0 =>
      simp only [hf] at h
      cases hc : findCourt st bl0.courtId with
      | none => simp [hc] at h
      | some court =>
        simp only [hc] at h
        cases h1 : (court.complexUserId != u) with
        | true => rw [h1] at h; simp at h
        | false =>
          rw [h1] at h
          rw [hsd, hed, hts, hte] at h
          simp only [] at h
          cases h2 : decide (ed < sd) with
          | true =>
            rw [h2] at h
            simp at h
          | false =>
            rw [h2] at h
            cases h3 : decide (toMinutes te ≤ toMinutes ts) with
            | true =>
              rw [h3] at h
              simp at h
            | false =>
              rw [h3] at h
              simp only [Bool.false_eq_true, if_false, Except.ok.injEq,
                Prod.mk.injEq] at h
              obtain ⟨hst2, hbl⟩ := h
              subst hbl
              constructor
              · show sd ≤ ed
                have hn := of_decide_eq_false h2
                omega
              · intro bs be hbs hbe
                have hbs2 : some ts = some bs := hbs
                have hbe2 : some te = some be := hbe
                cases hbs2
                cases hbe2
                have hn := of_decide_eq_false h3
                omega

/-- Witness for C9: a concrete create of a time-bounded blackout and a
concrete full update of it, both validated. -/
theorem c9_amended_blackout_validation_witness :
    (∃ st2 bl, CourtAvailabilityService.create baseStore 1 c9WitnessDto = .ok (st2, bl) ∧
      bl.startDate ≤ bl.endDate) ∧
    (∃ st3 bl2, CourtAvailabilityService.update c9WitnessStore 0 1 c9WitnessUpdateDto =
        .ok (st3, bl2) ∧
      bl2.startDate ≤ bl2.endDate) := by
  constructor
  · exact ⟨c9WitnessStore, c9CreatedBlackout, rfl,
      (c9_amended_blackout_validation.1 baseStore 1 c9WitnessDto c9WitnessStore
        c9CreatedBlackout rfl).1⟩
  · exact ⟨c9UpdatedStore, c9UpdatedBlackout, rfl,
      (c9_amended_blackout_validation.2 c9WitnessStore 0 1 c9WitnessUpdateDto 7 8 (10, 0)
        (12, 0) c9UpdatedStore c9UpdatedBlackout rfl rfl rfl rfl rfl).1⟩

/-- Claim C7, amended: on the dashboard create, a false availability check
is translated into a `ConflictException` and nothing is persisted, while a
true check (with the other validations passing) persists exactly one new
booking; on the public create, a blocking blackout or a conflicting active
booking is translated into a `BadRequestException` and nothing is
persisted.  The two paths do **not** raise the same error class: the
dashboard signals conflict (HTTP 409), the public path bad request
(HTTP 400). -/
theorem c7_amended_conflict_signalling :
    (∀ (st : Store) (u : Nat) (dto : CreateBookingDto) (court : Court) (cl : Client),
      findCourt st dto.courtId = some court → court.complexUserId = u →
      findClient st dto.clientId = some cl → cl.userId = u →
      dto.startTime < dto.endTime →
      (BookingsService.checkTimeSlotAvailability st dto.courtId dto.startTime
          dto.endTime none = false →
        BookingsService.create st u dto =
          .error (Err.conflict "La cancha no está disponible en el horario seleccionado")) ∧
      (BookingsService.checkTimeSlotAvailability st dto.courtId dto.startTime
          dto.endTime none = true →
        ∃ bk, BookingsService.create st u dto =
          .ok ({ st with nextId := st.nextId + 1, bookings := st.bookings ++ [bk] }, bk))) ∧
    (∀ (st : Store) (dto : CreatePublicBookingDto) (court : Court),
      findCourt st dto.courtId = some court → court.isActive = true →
      ((∃ bl, CourtAvailabilityService.checkAvailability st dto.courtId dto.date
          dto.startTime dto.endTime = some bl) →
        ∃ m, PublicBookingsController.createBooking st dto = .error (Err.badRequest m)) ∧
      (st.bookings.any (fun b => b.courtId == dto.courtId && isActiveStatus b.status &&
          overlapsCand b.startTime b.endTime (dto.date * 1440 + toMinutes dto.startTime)
            (dto.date * 1440 + toMinutes dto.endTime)) = true →
        ∃ m, PublicBookingsController.createBooking st dto = .error (Err.badRequest m))) ∧
    (Err.conflict "La cancha no está disponible en el horario seleccionado").kind ≠
      (Err.badRequest "Ya existe una reserva en ese horario").kind := by
  refine ⟨?_, ?_, by decide⟩
  · intro st u dto court cl hc hcu hcl hclu hlt
    have h1 : (court.complexUserId != u) = false := by simp [hcu]
    have h2 : (cl.userId != u) = false := by simp [hclu]
    have h3 : decide (dto.endTime ≤ dto.startTime) = false := by
      simp only [decide_eq_false_iff_not]
      omega
    constructor
    · intro hav
      simp [BookingsService.create, hc, hcl, h1, h2, h3, hav]
    · intro hav
      refine ⟨{ id := st.nextId
                courtId := dto.courtId
                clientId := some dto.clientId
                userId := u
                bookingDate := dto.bookingDate
                startTime := dto.startTime
                endTime := dto.endTime
                duration := dto.duration
                price := dto.price
                status := dto.status.getD defaultBookingStatus
                paymentStatus := dto.paymentStatus.getD defaultPaymentStatus
                isAppNative := false }, ?_⟩
      simp [BookingsService.create, hc, hcl, h1, h2, h3, hav]
  · intro st dto court hc hact
    have hact2 : (! court.isActive) = false := by simp [hact]
    constructor
    · rintro ⟨bl, hbl⟩
      by_cases hd : dto.date * 1440 + toMinutes dto.endTime ≤
          dto.date * 1440 + toMinutes dto.startTime
      · exact ⟨"La hora de fin debe ser posterior a la hora de inicio",
          by simp [PublicBookingsController.createBooking, hc, hact2, hd]⟩
      · exact ⟨"Cancha no disponible: " ++ blackoutMessage bl,
          by simp [PublicBookingsController.createBooking, hc, hact2, hd, hbl]⟩
    · intro hconf
      by_cases hd : dto.date * 1440 + toMinutes dto.endTime ≤
          dto.date * 1440 + toMinutes dto.startTime
      · exact ⟨"La hora de fin debe ser posterior a la hora de inicio",
          by simp [PublicBookingsController.createBooking, hc, hact2, hd]⟩
      · cases hbl : CourtAvailabilityService.checkAvailability st dto.courtId dto.date
            dto.startTime dto.endTime with
        | some bl =>
          exact ⟨"Cancha no disponible: " ++ blackoutMessage bl,
            by simp [PublicBookingsController.createBooking, hc, hact2, hd, hbl]⟩
        | none =>
          exact ⟨"Ya existe una reserva en ese horario",
            by simp [PublicBookingsController.createBooking, hc, hact2, hd, hbl, hconf]⟩

/-- Witness for C7: against the stored confirmed booking `[600, 660)` of
`storeWithBooking`, the dashboard create of the same window signals the
conflict error and the public create signals a bad-request error. -/
theorem c7_amended_conflict_signalling_witness :
    BookingsService.create storeWithBooking 1 c7Dto =
      .error (Err.conflict "La cancha no está disponible en el horario seleccionado") ∧
    (∃ m, PublicBookingsController.createBooking storeWithBooking c7PubDto =
      .error (Err.badRequest m)) := by
  constructor
  · exact (c7_amended_conflict_signalling.1 storeWithBooking 1 c7Dto
      { id := 1, complexUserId := 1, isActive := true } { id := 1, userId := 1 }
      rfl rfl rfl rfl (by decide)).1 (by decide)
  · exact (c7_amended_conflict_signalling.2.1 storeWithBooking c7PubDto
      { id := 1, complexUserId := 1, isActive := true } rfl rfl).2 (by decide)

/-- Claim C4, amended: on the **public** available-slots endpoint, every
slot whose minute interval is blocked by some active blackout of the court
whose date range contains the day is marked unavailable, and its reason is
`Bloqueado: <reason>` for such a blocking blackout; the **dashboard** slot
listing, by contrast, never consults blackouts (its slots carry no reason
field and availability is computed from bookings alone), as the
counterexample shows. -/
theorem c4_amended_public_slots_blackout (st : Store) (courtId day : Nat)
    (slots : List PubSlot)
    (hok : PublicCourtsController.getAvailableSlots st courtId day = .ok slots) :
    ∀ sl ∈ slots,
      (∃ bl ∈ st.blackouts, bl.courtId = courtId ∧ bl.isActive = true ∧
        bl.startDate ≤ day ∧ day ≤ bl.endDate ∧
        blackoutBlocksMinutes bl sl.startMin sl.endMin = true) →
      sl.available = false ∧
      (∃ bl ∈ st.blackouts, bl.courtId = courtId ∧ bl.isActive = true ∧
        bl.startDate ≤ day ∧ day ≤ bl.endDate ∧
        blackoutBlocksMinutes bl sl.startMin sl.endMin = true ∧
        sl.reason = some ("Bloqueado: " ++ bl.reason)) := by
  unfold PublicCourtsController.getAvailableSlots at hok
  cases hc : findCourt st courtId with
  | none => rw [hc] at hok; cases hok
  | some court =>
    rw [hc] at hok
    simp only [Except.ok.injEq] at hok
    subst hok
    intro sl hsl
    rw [List.mem_map] at hsl
    obtain ⟨m, hm, hmk⟩ := hsl
    rintro ⟨bl, hblmem, hcourt, hactive, hd1, hd2, hblocks⟩
    have hstart : sl.startMin = m := by
      subst hmk
      cases hf : (activeBlocksOn st courtId day).find?
          (fun bl => blackoutBlocksMinutes bl m (m + 30)) <;>
        simp only [hf] <;> split <;> rfl
    have hend : sl.endMin = m + 30 := by
      subst hmk
      cases hf : (activeBlocksOn st courtId day).find?
          (fun bl => blackoutBlocksMinutes bl m (m + 30)) <;>
        simp only [hf] <;> split <;> rfl
    have hblin : bl ∈ activeBlocksOn st courtId day := by
      rw [activeBlocksOn, List.mem_filter]
      refine ⟨hblmem, ?_⟩
      simp only [Bool.and_eq_true, beq_iff_eq, decide_eq_true_eq]
      exact ⟨⟨⟨hcourt, hactive⟩, hd1⟩, hd2⟩
    have hsome : ((activeBlocksOn st courtId day).find?
        (fun bl => blackoutBlocksMinutes bl m (m + 30))).isSome := by
      rw [List.find?_isSome]
      refine ⟨bl, hblin, ?_⟩
      rw [hstart, hend] at hblocks
      exact hblocks
    cases hf : (activeBlocksOn st courtId day).find?
        (fun bl => blackoutBlocksMinutes bl m (m + 30)) with
    | none => rw [hf] at hsome; cases hsome
    | some bl2 =>
      have hp2 := List.find?_some hf
      have hmem2 : bl2 ∈ activeBlocksOn st courtId day := List.mem_of_find?_eq_some hf
      rw [activeBlocksOn, List.mem_filter] at hmem2
      obtain ⟨hmem2a, hmem2b⟩ := hmem2
      simp only [Bool.and_eq_true, beq_iff_eq, decide_eq_true_eq] at hmem2b
      subst hmk
      rw [hf]
      exact ⟨rfl, bl2, hmem2a, hmem2b.1.1.1, hmem2b.1.1.2, hmem2b.1.2, hmem2b.2, hp2, rfl⟩

/-- Witness for C4: in `storeWithTimedBlock` (blackout 14:00–18:00 over
days 20–25), the 14:00 public slot of day 22 is unavailable with the
block's reason. -/
theorem c4_amended_public_slots_blackout_witness :
    ∃ sl ∈ c4WitnessSlots, sl.available = false ∧
      sl.reason = some "Bloqueado: private_event" := by
  have hok : PublicCourtsController.getAvailableSlots storeWithTimedBlock 1 22 =
      .ok c4WitnessSlots := rfl
  have hmem : ({ startMin := 840
                 endMin := 870
                 available := false
                 reason := some "Bloqueado: private_event" } : PubSlot) ∈ c4WitnessSlots := by
    decide
  have happ := c4_amended_public_slots_blackout storeWithTimedBlock 1 22 c4WitnessSlots hok
    _ hmem (by decide)
  exact ⟨_, hmem, happ.1, by decide⟩

/-- Witness for C5: the dashboard slot listing of the empty base store for
day 0 has exactly 34 slots. -/
theorem c5_slot_projection_tiles_window_witness :
    (BookingsService.getAvailableSlots baseStore 1 0).length = 34 :=
  (c5_slot_projection_tiles_window baseStore 1 0).2.1
